import Mathlib

/-!
Verification of the raster processing and analysis engine of the
Start-Hack-2025-UN repository, as a shallow embedding in Lean 4.

The embedding follows `backend/processing.py` (raster cache and multi-band
compositor), `backend/graphs/CreateGIF/utils/tools.py` (TIF → MBTiles
conversion), `backend/graphs/GeoChatAgent/utils/tools.py` (the
`DataAnalysisTool` statistics engine) and
`backend/graphs/GeoChatAgent/utils/nodes.py` (the GIF timeline renderer's
shared colour normalisation).

Numeric cell values and statistics are modelled over `ℚ` (exact rational
arithmetic as the idealisation of Python floats); quantities that are
genuinely irrational in the source (standard deviation, the annualised
compounding rate, Pearson correlation) live in `ℝ`.
-/

namespace UNHack

/-! ## Rasters and the multi-band compositor (`backend/processing.py`) -/

/-- A decoded single-band raster: `np.array(img)` for a grayscale image.
`data i j` is the cell at row `i`, column `j`. -/
structure Raster where
  height : ℕ
  width : ℕ
  data : ℕ → ℕ → ℚ

/-- The default raster, used only to totalise lookups that are guarded by
`isSome` facts. -/
def defaultRaster : Raster := ⟨0, 0, fun _ _ => 0⟩

instance : Inhabited Raster := ⟨defaultRaster⟩

/-- The four top-level keys of `TIF_CACHE` in `backend/processing.py`.  The
outer dict is created with exactly these keys at module load and never gains
or loses a key, so the membership test `ds not in TIF_CACHE` is a test
against this fixed list, independent of which years were loaded. -/
def supportedDatasets : List String :=
  ["Climate_Precipitation_Data", "Gridded_Population_Density_Data",
   "MODIS_Gross_Primary_Production_GPP", "Modis_Land_Cover_Data"]

/-- The contents of the inner per-dataset dicts of `TIF_CACHE`: which
(dataset, year) pairs were successfully decoded from disk.  `none` models an
absent entry. -/
def Cache : Type := String → ℤ → Option Raster

/-- The distinct `ValueError`s raised by `load_and_preprocess_tif`. -/
inductive ComposeError where
  /-- "Currently only the Assaba region is supported." -/
  | unsupportedRegion : ComposeError
  /-- "Unsupported dataset: \x7bds\x7d" -/
  | unsupportedDataset (ds : String) : ComposeError
  /-- "Data for year \x7byear\x7d not found for dataset \x7bds\x7d" -/
  | missingYear (ds : String) (year : ℤ) : ComposeError
  /-- "No datasets loaded." -/
  | noDatasets : ComposeError
deriving DecidableEq

/-- `Image.fromarray(arr); im.resize((max_width, max_height), resample=Image.BILINEAR)`:
the raster resampled to `h × w` by bilinear interpolation.  Target pixel
`(i, j)` samples the source at `((i + 1/2) * height/h - 1/2, (j + 1/2) * width/w - 1/2)`
and blends the four surrounding source cells, clamping coordinates to the
source grid.  No theorem below depends on the interpolated values, only on
the resulting dimensions. -/
def resizeBilinear (a : Raster) (w h : ℕ) : Raster :=
  { height := h
    width := w
    data := fun i j =>
      let y : ℚ := ((i : ℚ) + 1/2) * (a.height : ℚ) / (h : ℚ) - 1/2
      let x : ℚ := ((j : ℚ) + 1/2) * (a.width : ℚ) / (w : ℚ) - 1/2
      let y0 : ℤ := max 0 (min (⌊y⌋) ((a.height : ℤ) - 1))
      let x0 : ℤ := max 0 (min (⌊x⌋) ((a.width : ℤ) - 1))
      let y1 : ℤ := max 0 (min (y0 + 1) ((a.height : ℤ) - 1))
      let x1 : ℤ := max 0 (min (x0 + 1) ((a.width : ℤ) - 1))
      let fy : ℚ := max 0 (min (y - (y0 : ℚ)) 1)
      let fx : ℚ := max 0 (min (x - (x0 : ℚ)) 1)
      let v00 := a.data y0.toNat x0.toNat
      let v01 := a.data y0.toNat x1.toNat
      let v10 := a.data y1.toNat x0.toNat
      let v11 := a.data y1.toNat x1.toNat
      (1 - fy) * ((1 - fx) * v00 + fx * v01) + fy * ((1 - fx) * v10 + fx * v11) }

/-- The loop `for ds in datasets:` of `load_and_preprocess_tif`: checks
`ds not in TIF_CACHE` (unsupported dataset) before `year not in TIF_CACHE[ds]`
(missing year), raising at the first offending dataset, and otherwise
collects the cached arrays in request order. -/
def gatherArrays (cache : Cache) (year : ℤ) : List String → Except ComposeError (List Raster)
  | [] => .ok []
  | ds :: rest =>
    if ds ∈ supportedDatasets then
      match cache ds year with
      | some arr => do
          let tail ← gatherArrays cache year rest
          .ok (arr :: tail)
      | none => .error (.missingYear ds year)
    else
      .error (.unsupportedDataset ds)

/-- `region.lower()`: ASCII lowercasing, character by character (the region
names handled here are ASCII). -/
def strLower (s : String) : String := ⟨s.data.map Char.toLower⟩

/-- `max(arr.shape[0] for arr in arrays)`: the maximum height among the
gathered layers. -/
def maxHeightOf (l : List Raster) : ℕ := (l.map Raster.height).foldr max 0

/-- `max(arr.shape[1] for arr in arrays)`: the maximum width among the
gathered layers. -/
def maxWidthOf (l : List Raster) : ℕ := (l.map Raster.width).foldr max 0

/-- The upscaling loop of `load_and_preprocess_tif`: each array whose
dimensions differ from the maxima is resized (bilinear) up to them, the
rest pass through unchanged. -/
def upscaleAll (l : List Raster) : List Raster :=
  l.map fun arr =>
    if arr.height ≠ maxHeightOf l ∨ arr.width ≠ maxWidthOf l then
      resizeBilinear arr (maxWidthOf l) (maxHeightOf l)
    else arr

/-- The layers the gather loop appends, in request order, totalised with
`defaultRaster` (only read under `isSome` facts). -/
def cachedLayers (cache : Cache) (year : ℤ) (datasets : List String) : List Raster :=
  datasets.map fun ds => (cache ds year).getD defaultRaster

/-- The in-memory multi-band GeoTIFF written by `load_and_preprocess_tif`:
`count = num_bands` bands of identical `height × width`, band `i + 1`
holding `stacked[:, :, i]`. -/
structure Composite where
  height : ℕ
  width : ℕ
  bands : List Raster

/-- `load_and_preprocess_tif(region, year, datasets)` from
`backend/processing.py`.  Raises (models as `.error`) on an unsupported
region, an unsupported dataset name, a missing (dataset, year) cache entry,
or an empty dataset list; otherwise upscales every gathered array to the
maximum height and width among them (bilinear) and stacks them as bands in
request order.  The single-dataset branch (`arr[:, :, None]`) and the
`np.stack` branch both produce the gathered list as bands, so they are
modelled uniformly. -/
def load_and_preprocess_tif (cache : Cache) (region : String) (year : ℤ)
    (datasets : List String) : Except ComposeError Composite :=
  if strLower region ≠ "assaba" then
    .error .unsupportedRegion
  else
    match gatherArrays cache year datasets with
    | .error e => .error e
    | .ok arrays =>
      if arrays.isEmpty then
        .error .noDatasets
      else
        .ok ⟨maxHeightOf arrays, maxWidthOf arrays, upscaleAll arrays⟩

/-- Whether a compose outcome is the "Data for year ... not found" failure. -/
def isMissingLayerError : Except ComposeError Composite → Bool
  | .error (.missingYear _ _) => true
  | _ => false

/-- Whether a compose outcome is the "Unsupported dataset" failure. -/
def isUnsupportedDatasetError : Except ComposeError Composite → Bool
  | .error (.unsupportedDataset _) => true
  | _ => false

/-! ## TIF → MBTiles conversion (`backend/graphs/CreateGIF/utils/tools.py`,
`convert_tif_to_mbtiles_in_memory`)

The function is modelled as a deterministic evaluator over an environment
describing the outcome of each effectful step: creating and writing the
temporary `.tif` file, creating the temporary `.mbtiles` file, running the
`rio mbtiles` subprocess, and reading the produced archive back.  The
filesystem state tracks whether each of the two `delete=False` temporary
files exists when the function returns. -/

/-- Outcomes of the effectful steps of `convert_tif_to_mbtiles_in_memory`.
`toolOutcome = none` models `subprocess.run` itself raising (e.g. the `rio`
binary is absent); `some (code, stderr)` models a completed run.
`exnMsg` is `str(e)` for whichever exception occurs, if any. -/
structure ConvEnv where
  tifCreateOk : Bool
  tifWriteOk : Bool
  mbCreateOk : Bool
  toolOutcome : Option (ℤ × String)
  readOk : Bool
  mbData : List ℕ
  exnMsg : String

/-- Which of the two `delete=False` temporary files exist on disk. -/
structure TempFS where
  tifExists : Bool
  mbExists : Bool
deriving DecidableEq

/-- Return value of the modelled function: the `(bytes, error)` pair the
caller receives, plus the final filesystem state.  The function always
returns a pair — the outer `try/except Exception` converts every exception
into `(b"", error message)` — so the model is total. -/
structure ConvResult where
  data : List ℕ
  err : String
  fs : TempFS
deriving DecidableEq

/-- The inner `try` body: run `rio mbtiles`, return
`(b"", "Error in rio mbtiles: " + stderr)` on a non-zero exit code, else
read the archive back.  `.exn` marks an exception escaping the body. -/
inductive InnerOut where
  | ret (data : List ℕ) (err : String) : InnerOut
  | exn (msg : String) : InnerOut

/-- One evaluation of the inner `try` body of
`convert_tif_to_mbtiles_in_memory` under outcome environment `env`. -/
def innerBody (env : ConvEnv) : InnerOut :=
  match env.toolOutcome with
  | none => .exn env.exnMsg
  | some (code, stderr) =>
    if code ≠ 0 then
      .ret [] ("Error in rio mbtiles: " ++ stderr)
    else if env.readOk then
      .ret env.mbData ""
    else
      .exn env.exnMsg

/-- The `finally` block: `os.remove` each temporary file that exists.
Starting from any state it leaves both files absent. -/
def cleanupTemps (_ : TempFS) : TempFS := ⟨false, false⟩

/-- `convert_tif_to_mbtiles_in_memory(tif_data)`.  Control flow of the
source, path by path:
* creating the `.tif` tempfile raises → no file exists yet; the outer
  `except` returns the error pair;
* writing `tif_data` raises → the `.tif` file (created with
  `delete=False`) already exists and nothing removes it;
* creating the `.mbtiles` tempfile raises → likewise the `.tif` file
  remains;
* otherwise both files exist and the inner `try`'s `finally` removes both
  whatever the body does (early `return` on a non-zero exit code, normal
  return, or an exception, which the outer `except` then converts to an
  error pair). -/
def convert_tif_to_mbtiles_in_memory (env : ConvEnv) : ConvResult :=
  if ¬env.tifCreateOk then
    ⟨[], "Error converting TIF to MBTiles: " ++ env.exnMsg, ⟨false, false⟩⟩
  else if ¬env.tifWriteOk then
    ⟨[], "Error converting TIF to MBTiles: " ++ env.exnMsg, ⟨true, false⟩⟩
  else if ¬env.mbCreateOk then
    ⟨[], "Error converting TIF to MBTiles: " ++ env.exnMsg, ⟨true, false⟩⟩
  else
    let fsFinal := cleanupTemps ⟨true, true⟩
    match innerBody env with
    | .ret d e => ⟨d, e, fsFinal⟩
    | .exn m => ⟨[], "Error converting TIF to MBTiles: " ++ m, fsFinal⟩

/-! ## The statistics engine (`backend/graphs/GeoChatAgent/utils/tools.py`,
class `DataAnalysisTool`) -/

/-- A GeoJSON geometry as consumed by `extract_data_with_coordinates`:
a `Point` carries its own coordinate, a `Polygon` a list of rings, a
`LineString` a list of coordinates. -/
inductive Geometry where
  | point (lon lat : ℚ) : Geometry
  | polygon (rings : List (List (ℚ × ℚ))) : Geometry
  | line (pts : List (ℚ × ℚ)) : Geometry

/-- One GeoJSON feature.  `dn = some v` models a `properties["DN"]` entry
that is present and numeric (`isinstance(dn_value, (int, float))`); an
absent or non-numeric `DN` — both skipped identically by the source — is
`none`.  `geometry = none` models an absent or empty geometry. -/
structure Feature where
  dn : Option ℚ
  geometry : Option Geometry

/-- A parsed GeoJSON document (a dict with a `"features"` key). -/
structure GeoJson where
  features : List Feature

/-- `DataAnalysisTool.extract_data_values`: the `DN` values that are present,
numeric and strictly positive, in feature order. -/
def extract_data_values (g : GeoJson) : List ℚ :=
  g.features.filterMap fun f =>
    match f.dn with
    | some v => if 0 < v then some v else none
    | none => none

/-- Arithmetic mean of a coordinate list (the source's `sum/count` centroid
of a polygon's first ring or a line's coordinates). -/
def ringCentroid (ring : List (ℚ × ℚ)) : ℚ × ℚ :=
  ((ring.map Prod.fst).sum / ring.length, (ring.map Prod.snd).sum / ring.length)

/-- `DataAnalysisTool.extract_data_with_coordinates`: for each feature with a
present, numeric, positive `DN`, pair the value with the feature's
representative coordinate — a point's own coordinate, or the centroid of a
polygon's first ring / a line's coordinates.  A polygon with no rings is
skipped (`if coords and ...` is falsy); a polygon whose first ring is empty
makes the source raise `IndexError` on `coords[0][0]` and is modelled as
skipped (no claim exercises it; well-formed GeoJSON has non-empty rings). -/
def extract_data_with_coordinates (g : GeoJson) : List (ℚ × ℚ × ℚ) :=
  g.features.filterMap fun f =>
    match f.dn with
    | none => none
    | some v =>
      if 0 < v then
        match f.geometry with
        | some (.point lon lat) => some (lon, lat, v)
        | some (.polygon []) => none
        | some (.polygon (ring :: _)) =>
          if ring.isEmpty then none
          else some ((ringCentroid ring).1, (ringCentroid ring).2, v)
        | some (.line pts) =>
          if pts.isEmpty then none
          else some ((ringCentroid pts).1, (ringCentroid pts).2, v)
        | none => none
      else none

/-- `DataAnalysisTool.calculate_center_of_mass`: the value-weighted average
coordinate of `(longitude, latitude, value)` points; `(0, 0)` when the point
list is empty or the total weight is zero. -/
def calculate_center_of_mass (points : List (ℚ × ℚ × ℚ)) : ℚ × ℚ :=
  if points.isEmpty then (0, 0)
  else
    let total_weight := (points.map fun p => p.2.2).sum
    if total_weight = 0 then (0, 0)
    else
      ((points.map fun p => p.1 * p.2.2).sum / total_weight,
       (points.map fun p => p.2.1 * p.2.2).sum / total_weight)

/-- `min(values)` over a non-empty list (0 on the never-taken empty case). -/
def listMin : List ℚ → ℚ
  | [] => 0
  | x :: xs => xs.foldl min x

/-- `max(values)` over a non-empty list (0 on the never-taken empty case). -/
def listMax : List ℚ → ℚ
  | [] => 0
  | x :: xs => xs.foldl max x

/-- `np.mean(values)`. -/
def npMean (l : List ℚ) : ℚ := l.sum / l.length

/-- `np.median(values)`: middle element of the sorted list, or the average
of the two middle elements for even length. -/
def npMedian (l : List ℚ) : ℚ :=
  let s := l.mergeSort (fun a b => a ≤ b)
  if l.length % 2 = 1 then s.getD (l.length / 2) 0
  else (s.getD (l.length / 2 - 1) 0 + s.getD (l.length / 2) 0) / 2

/-- The population variance `np.mean((v - mean)^2)` feeding `np.std`. -/
def npVariance (l : List ℚ) : ℚ :=
  (l.map fun v => (v - npMean l) ^ 2).sum / l.length

/-- `np.std(values)`: square root of the population variance. -/
noncomputable def npStd (l : List ℚ) : ℝ := Real.sqrt (npVariance l : ℝ)

/-- The dictionary returned by `DataAnalysisTool.calculate_statistics`. -/
structure StatsResult where
  count : ℕ
  min : ℚ
  max : ℚ
  mean : ℚ
  median : ℚ
  std_dev : ℝ
  center_of_mass : ℚ × ℚ

/-- The all-zero statistics returned for an empty value list. -/
def zeroStats : StatsResult := ⟨0, 0, 0, 0, 0, 0, (0, 0)⟩

/-- `DataAnalysisTool.calculate_statistics(values, geojson)`: all-zero for an
empty value list; otherwise count/min/max/mean/median/std over the values,
with the centre of mass computed from the geojson when one is supplied and
it yields at least one qualifying point, `(0, 0)` otherwise. -/
noncomputable def calculate_statistics (values : List ℚ) (geojson : Option GeoJson) :
    StatsResult :=
  match values with
  | [] => zeroStats
  | v :: vs =>
    let l := v :: vs
    { count := l.length
      min := listMin l
      max := listMax l
      mean := npMean l
      median := npMedian l
      std_dev := npStd l
      center_of_mass :=
        match geojson with
        | some g =>
          let points := extract_data_with_coordinates g
          if points.isEmpty then (0, 0) else calculate_center_of_mass points
        | none => (0, 0) }

/-- Python's `round(x, 2)` on exact rationals (ties never arise in the
values proved about below, so round-half-even and round-half-up agree). -/
def round2 (q : ℚ) : ℚ := (round (q * 100) : ℚ) / 100

/-- Python's `round(x, 6)` on exact rationals. -/
def round6 (q : ℚ) : ℚ := (round (q * 1000000) : ℚ) / 1000000

/-- Python's `round(x, 2)` on reals. -/
noncomputable def round2R (x : ℝ) : ℝ := (round (x * 100) : ℝ) / 100

/-- Python's `round(x, 3)` on reals. -/
noncomputable def round3R (x : ℝ) : ℝ := (round (x * 1000) : ℝ) / 1000

/-! ### Temporal trends (`DataAnalysisTool.analyze_temporal_trends`)

The per-year GeoJSON lookup `get_geojson_data(dataset, country, year)` is
file I/O outside the engine; it is abstracted as a parameter
`getGeo : ℤ → Option GeoJson` fixed to one (dataset, country). -/

/-- The keys of `yearly_data` / `yearly_stats`: the requested years, sorted
ascending, de-duplicated (dict keys are unique), restricted to those with
GeoJSON data available. -/
def dataYears (getGeo : ℤ → Option GeoJson) (years : List ℤ) : List ℤ :=
  ((years.mergeSort (fun a b => a ≤ b)).dedup).filter fun y => (getGeo y).isSome

/-- `yearly_stats[year] = calculate_statistics(values, geojson)`; only ever
read at years in `dataYears`, where the lookup succeeds. -/
noncomputable def yearStats (getGeo : ℤ → Option GeoJson) (y : ℤ) : StatsResult :=
  match getGeo y with
  | some g => calculate_statistics (extract_data_values g) (some g)
  | none => zeroStats

/-- Shorthand for `yearly_stats[y]["mean"]`. -/
noncomputable def yearMean (getGeo : ℤ → Option GeoJson) (y : ℤ) : ℚ :=
  (yearStats getGeo y).mean

/-- The `(sorted_years[i-1], sorted_years[i])` pairs of the loop
`for i in range(1, len(sorted_years))`. -/
def consecPairs : List ℤ → List (ℤ × ℤ)
  | a :: b :: rest => (a, b) :: consecPairs (b :: rest)
  | _ => []

/-- The `changes` dict: for each consecutive year pair whose two means are
both positive, the rounded percent change
`(mean_cur - mean_prev) / mean_prev * 100`, keyed by the pair. -/
noncomputable def percentChanges (getGeo : ℤ → Option GeoJson) (ys : List ℤ) :
    List ((ℤ × ℤ) × ℚ) :=
  (consecPairs ys).filterMap fun pc =>
    if 0 < yearMean getGeo pc.2 ∧ 0 < yearMean getGeo pc.1 then
      some (pc, round2 ((yearMean getGeo pc.2 - yearMean getGeo pc.1) /
        yearMean getGeo pc.1 * 100))
    else none

/-- One entry of `center_of_mass_shifts`. -/
structure ComShift where
  direction : String
  longitude_shift : ℚ
  latitude_shift : ℚ

/-- The cardinal/ordinal bucketing of a centre-of-mass shift: each axis is
compared against the 0.001-degree threshold independently and the non-empty
labels are concatenated, `"No significant shift"` when both are empty. -/
def shiftDirection (lonDiff latDiff : ℚ) : String :=
  let ns := if latDiff > 1/1000 then "North" else if latDiff < -(1/1000) then "South" else ""
  let ew := if lonDiff > 1/1000 then "East" else if lonDiff < -(1/1000) then "West" else ""
  let d := ns ++ ew
  if d = "" then "No significant shift" else d

/-- The `center_of_mass_shifts` dict: for each consecutive year pair whose
two centre-of-mass longitudes are both non-zero, the bucketed direction and
the rounded per-axis shifts. -/
noncomputable def comShifts (getGeo : ℤ → Option GeoJson) (ys : List ℤ) :
    List ((ℤ × ℤ) × ComShift) :=
  (consecPairs ys).filterMap fun pc =>
    let pcom := (yearStats getGeo pc.1).center_of_mass
    let ccom := (yearStats getGeo pc.2).center_of_mass
    if ccom.1 ≠ 0 ∧ pcom.1 ≠ 0 then
      let lonDiff := ccom.1 - pcom.1
      let latDiff := ccom.2 - pcom.2
      some (pc, ⟨shiftDirection lonDiff latDiff, round6 lonDiff, round6 latDiff⟩)
    else none

/-- The change-metrics part of the dict returned by
`analyze_temporal_trends` when at least two years have data and the first
and last of them have positive means. -/
structure TrendChanges where
  percent_changes : List ((ℤ × ℤ) × ℚ)
  center_of_mass_shifts : List ((ℤ × ℤ) × ComShift)
  trend_direction : String
  average_yearly_change : ℚ
  time_period : ℤ × ℤ
  total_percent_change : ℚ
  annualized_rate : ℝ

/-- The full return value of `analyze_temporal_trends`: the per-year
statistics always, the change metrics only on the branch that produces
them. -/
structure TrendResult where
  yearly_statistics : List (ℤ × StatsResult)
  changes : Option TrendChanges

/-- `DataAnalysisTool.analyze_temporal_trends(dataset, country, years)` with
the GeoJSON lookup abstracted as `getGeo`.  Mirrors the source: years with
data are collected in sorted order; with more than one such year the
consecutive percent changes and centre-of-mass shifts are computed, and if
the first and last year both have positive means the change metrics
(including the total and annualised rates over the whole period) are
returned alongside the per-year statistics, otherwise only the per-year
statistics. -/
noncomputable def analyze_temporal_trends (getGeo : ℤ → Option GeoJson)
    (years : List ℤ) : TrendResult :=
  let ys := dataYears getGeo years
  let stats := ys.map fun y => (y, yearStats getGeo y)
  if 1 < ys.length then
    let firstY := ys.headI
    let lastY := ys.getLastD 0
    let ch := percentChanges getGeo ys
    if 0 < yearMean getGeo firstY ∧ 0 < yearMean getGeo lastY then
      let total := round2 ((yearMean getGeo lastY - yearMean getGeo firstY) /
        yearMean getGeo firstY * 100)
      let yd := lastY - firstY
      let ann : ℝ :=
        if 0 < yd then
          (((yearMean getGeo lastY : ℝ) / (yearMean getGeo firstY : ℝ)) ^
            ((1 : ℝ) / (yd : ℝ)) - 1) * 100
        else 0
      { yearly_statistics := stats
        changes := some
          { percent_changes := ch
            center_of_mass_shifts := comShifts getGeo ys
            trend_direction :=
              if 0 < (ch.map (·.2)).sum then "increasing" else "decreasing"
            average_yearly_change :=
              if ch.isEmpty then 0 else round2 ((ch.map (·.2)).sum / ch.length)
            time_period := (firstY, lastY)
            total_percent_change := total
            annualized_rate := round2R ann } }
    else ⟨stats, none⟩
  else ⟨stats, none⟩

/-! ### Correlations (`DataAnalysisTool.analyze_correlations`) -/

/-- `np.corrcoef(x, y)[0, 1]`: the Pearson correlation coefficient
`cov(x, y) / (std(x) * std(y))`. -/
noncomputable def pearson (xs ys : List ℚ) : ℝ :=
  let mx := npMean xs
  let my := npMean ys
  let cov : ℚ := ((xs.zip ys).map fun p => (p.1 - mx) * (p.2 - my)).sum
  let vx : ℚ := (xs.map fun v => (v - mx) ^ 2).sum
  let vy : ℚ := (ys.map fun v => (v - my) ^ 2).sum
  (cov : ℝ) / (Real.sqrt (vx : ℝ) * Real.sqrt (vy : ℝ))

/-- The return value of `analyze_correlations`: the per-year correlations
always; the average/relationship/strength fields only when at least one
year produced a correlation. -/
structure CorrelationResult where
  yearly_correlations : List (ℤ × ℝ)
  summary : Option (ℝ × String × String)

/-- The `correlations` dict built by the year loop of
`analyze_correlations`: for each year with both documents available, both
value lists are truncated to the shorter length; years with fewer than 10
paired observations (`min_length < 10`) are skipped, the rest contribute
the rounded Pearson coefficient. -/
noncomputable def yearlyCorrelations (getPop getPrecip : ℤ → Option GeoJson)
    (years : List ℤ) : List (ℤ × ℝ) :=
  years.filterMap fun y =>
    match getPop y, getPrecip y with
    | some pg, some qg =>
      let pv := extract_data_values pg
      let qv := extract_data_values qg
      let m := Min.min pv.length qv.length
      if m < 10 then none
      else some (y, round3R (pearson (pv.take m) (qv.take m)))
    | _, _ => none

/-- `DataAnalysisTool.analyze_correlations(country, years)` with the two
GeoJSON lookups (`PopDensity` and `Precipitation` for the fixed country)
abstracted as `getPop` and `getPrecip`.  If any year contributed a
correlation, the average of the per-year coefficients is classified by sign
(±0.1) and magnitude (0.3 / 0.7); otherwise only the empty per-year mapping
is returned. -/
noncomputable def analyze_correlations (getPop getPrecip : ℤ → Option GeoJson)
    (years : List ℤ) : CorrelationResult :=
  if (yearlyCorrelations getPop getPrecip years).isEmpty then
    ⟨yearlyCorrelations getPop getPrecip years, none⟩
  else
    let avg : ℝ := ((yearlyCorrelations getPop getPrecip years).map (·.2)).sum /
      (yearlyCorrelations getPop getPrecip years).length
    let relationship :=
      if avg > 1/10 then "positive" else if avg < -(1/10) then "negative" else "neutral"
    let strength :=
      if |avg| > 7/10 then "strong" else if |avg| > 3/10 then "moderate" else "weak"
    ⟨yearlyCorrelations getPop getPrecip years, some (round3R avg, relationship, strength)⟩

/-! ## GIF timeline colour normalisation
(`backend/graphs/GeoChatAgent/utils/nodes.py`, `create_gif_timeline`)

Only the shared-normalisation first pass is modelled: the frames that were
read successfully (`data_series`), the global min/max over valid cells, the
defaulting of an untouched range, and the per-dataset-kind normalisation
parameters.  The matplotlib rendering and GIF assembly that follow consume
these parameters unchanged. -/

/-- One successfully read raster of the timeline (`data_series` entry).
A cell is `none` when it holds NaN (unrepresentable in `ℚ`); `nodata` is
`src.nodata`, masked out by `np.ma.masked_equal` before the validity scan. -/
structure GifFrame where
  year : ℤ
  cells : List (Option ℚ)
  nodata : Option ℚ

/-- The valid cells of one frame: `data[~np.isnan(data) & (data > 0)]` after
masking the nodata value — non-NaN, not equal to `nodata`, strictly
positive. -/
def validCells (f : GifFrame) : List ℚ :=
  f.cells.filterMap fun c =>
    match c with
    | none => none
    | some v =>
      if (∀ nd ∈ f.nodata, v ≠ nd) ∧ 0 < v then some v
      else none

/-- All valid cells across the timeline, in frame order. -/
def allValidCells (frames : List GifFrame) : List ℚ :=
  (frames.map validCells).flatten

/-- The global `(min_val, max_val)` after the first pass: `min_val` starts
at `inf` and `max_val` at `-inf` (modelled as `none`), each updated from
every frame with at least one valid cell; an untouched `min_val` defaults
to 0 and an untouched `max_val` to 100. -/
def gifGlobalRange (frames : List GifFrame) : ℚ × ℚ :=
  match allValidCells frames with
  | [] => (0, 100)
  | v :: vs => ((vs.foldl min v : ℚ), (vs.foldl max v : ℚ))

/-- The shared colour-normalisation parameters handed to every frame. -/
structure NormSetup where
  vmin : ℚ
  vmax : ℚ
  logScale : Bool
  cmap : String
deriving DecidableEq

/-- The first pass of `create_gif_timeline` over the successfully read
frames: fails (the "could not process any TIFF files" early return) only
when no frame was read; otherwise computes the defaulted global range and
the per-kind normalisation — `LogNorm(max(1, min_val), max(100, max_val))`
with `viridis` for `PopDensity`, `Normalize(min_val, max(100, max_val))`
with `Blues` otherwise. -/
def gifNormSetup (dataset : String) (frames : List GifFrame) :
    Except String NormSetup :=
  if frames.isEmpty then
    .error "Sorry, I could not process any TIFF files from the available data."
  else
    let r := gifGlobalRange frames
    if dataset = "PopDensity" then
      .ok ⟨Max.max 1 r.1, Max.max 100 r.2, true, "viridis"⟩
    else
      .ok ⟨r.1, Max.max 100 r.2, false, "Blues"⟩

/-! ## Claims -/

/-- C6: `calculate_statistics` applied to an empty value list returns a
result whose count, min, max, mean, median and std_dev are all zero and
whose centre of mass is `(0, 0)`, whatever GeoJSON document (if any) is
supplied. -/
theorem calculate_statistics_empty (geojson : Option GeoJson) :
    calculate_statistics [] geojson = zeroStats ∧
      zeroStats.count = 0 ∧ zeroStats.min = 0 ∧ zeroStats.max = 0 ∧
      zeroStats.mean = 0 ∧ zeroStats.median = 0 ∧ zeroStats.std_dev = 0 ∧
      zeroStats.center_of_mass = (0, 0) := by
  refine ⟨rfl, rfl, rfl, rfl, rfl, rfl, rfl, rfl⟩

/-- C6 witness: the empty-list statistics at a concrete document. -/
theorem calculate_statistics_empty_witness :
    calculate_statistics [] (some ⟨[]⟩) = zeroStats :=
  (calculate_statistics_empty (some ⟨[]⟩)).1

/-- Sums distribute over a common scalar factor inside a weighted map. -/
lemma list_sum_map_mul_assoc (l : List (ℚ × ℚ × ℚ)) (f : ℚ × ℚ × ℚ → ℚ) (c : ℚ) :
    (l.map fun p => f p * (c * p.2.2)).sum = c * (l.map fun p => f p * p.2.2).sum := by
  induction l with
  | nil => simp
  | cons a t ih => simp [ih]; ring

/-- C7: `calculate_center_of_mass` is invariant under scaling every weight
by a positive constant: for a non-empty point list with positive total
weight and any `0 < c`, scaling all weights by `c` leaves the centre of
mass unchanged. -/
theorem center_of_mass_scale_invariant (points : List (ℚ × ℚ × ℚ)) (c : ℚ)
    (hne : points ≠ []) (hw : 0 < (points.map fun p => p.2.2).sum) (hc : 0 < c) :
    calculate_center_of_mass (points.map fun p => (p.1, p.2.1, c * p.2.2)) =
      calculate_center_of_mass points := by
  have hc0 : c ≠ 0 := ne_of_gt hc
  have hw0 : (points.map fun p => p.2.2).sum ≠ 0 := ne_of_gt hw
  have hmapne : (points.map fun p => (p.1, p.2.1, c * p.2.2)) ≠ [] := by
    simpa using hne
  have hwts : ((points.map fun p => (p.1, p.2.1, c * p.2.2)).map fun p => p.2.2).sum
      = c * (points.map fun p => p.2.2).sum := by
    rw [List.map_map]
    have : ((fun p : ℚ × ℚ × ℚ => p.2.2) ∘ fun p : ℚ × ℚ × ℚ => (p.1, p.2.1, c * p.2.2))
        = fun p : ℚ × ℚ × ℚ => c * p.2.2 := rfl
    rw [this]
    simpa using (list_sum_map_mul_assoc points (fun _ => 1) c).trans
      (by simp)
  have hlon : ((points.map fun p => (p.1, p.2.1, c * p.2.2)).map fun p => p.1 * p.2.2).sum
      = c * (points.map fun p => p.1 * p.2.2).sum := by
    rw [List.map_map]
    have : ((fun p : ℚ × ℚ × ℚ => p.1 * p.2.2) ∘ fun p : ℚ × ℚ × ℚ => (p.1, p.2.1, c * p.2.2))
        = fun p : ℚ × ℚ × ℚ => p.1 * (c * p.2.2) := rfl
    rw [this, list_sum_map_mul_assoc]
  have hlat : ((points.map fun p => (p.1, p.2.1, c * p.2.2)).map fun p => p.2.1 * p.2.2).sum
      = c * (points.map fun p => p.2.1 * p.2.2).sum := by
    rw [List.map_map]
    have : ((fun p : ℚ × ℚ × ℚ => p.2.1 * p.2.2) ∘ fun p : ℚ × ℚ × ℚ => (p.1, p.2.1, c * p.2.2))
        = fun p : ℚ × ℚ × ℚ => p.2.1 * (c * p.2.2) := rfl
    rw [this, list_sum_map_mul_assoc]
  have hcw0 : c * (points.map fun p => p.2.2).sum ≠ 0 := mul_ne_zero hc0 hw0
  unfold calculate_center_of_mass
  have h1 : ((points.map fun p => (p.1, p.2.1, c * p.2.2)).isEmpty) = false := by
    simp [List.isEmpty_iff, hne]
  have h2 : points.isEmpty = false := by simp [List.isEmpty_iff, hne]
  rw [h1, h2]
  simp only [Bool.false_eq_true, if_false, hwts, hlon, hlat]
  rw [if_neg hcw0, if_neg hw0, mul_div_mul_left _ _ hc0, mul_div_mul_left _ _ hc0]

/-- C7 witness: weight scaling by 2 on a concrete two-point list. -/
theorem center_of_mass_scale_invariant_witness :
    ([((1 : ℚ), (2 : ℚ), (3 : ℚ)), (4, 5, 6)] ≠ ([] : List (ℚ × ℚ × ℚ))) ∧
      (0 : ℚ) < ([((1 : ℚ), (2 : ℚ), (3 : ℚ)), (4, 5, 6)].map fun p => p.2.2).sum ∧
      calculate_center_of_mass
          ([((1 : ℚ), (2 : ℚ), (3 : ℚ)), (4, 5, 6)].map fun p => (p.1, p.2.1, 2 * p.2.2)) =
        calculate_center_of_mass [((1 : ℚ), (2 : ℚ), (3 : ℚ)), (4, 5, 6)] :=
  ⟨by decide, by norm_num,
    center_of_mass_scale_invariant [((1 : ℚ), (2 : ℚ), (3 : ℚ)), (4, 5, 6)] 2
      (by decide) (by norm_num) (by norm_num)⟩

/-- C5: whenever the external `rio mbtiles` tool runs and exits with a
non-zero code, `convert_tif_to_mbtiles_in_memory` returns exactly the pair
`(empty bytes, "Error in rio mbtiles: " ++ stderr)` — an error string
carrying the tool's diagnostic output — with both temporary files removed;
the model is total, so no exception escapes the function. -/
theorem convert_nonzero_exit_returns_error (env : ConvEnv) (code : ℤ) (stderr : String)
    (h1 : env.tifCreateOk = true) (h2 : env.tifWriteOk = true)
    (h3 : env.mbCreateOk = true) (h4 : env.toolOutcome = some (code, stderr))
    (h5 : code ≠ 0) :
    convert_tif_to_mbtiles_in_memory env =
      ⟨[], "Error in rio mbtiles: " ++ stderr, ⟨false, false⟩⟩ := by
  unfold convert_tif_to_mbtiles_in_memory innerBody cleanupTemps
  rw [h1, h2, h3, h4]
  simp [h5]

/-- C5 witness: a concrete environment in which the tool exits with code 1
and stderr "no such driver". -/
theorem convert_nonzero_exit_returns_error_witness :
    convert_tif_to_mbtiles_in_memory
        ⟨true, true, true, some (1, "no such driver"), true, [7], "oops"⟩ =
      ⟨[], "Error in rio mbtiles: " ++ "no such driver", ⟨false, false⟩⟩ :=
  convert_nonzero_exit_returns_error
    ⟨true, true, true, some (1, "no such driver"), true, [7], "oops"⟩ 1 "no such driver"
    rfl rfl rfl rfl (by decide)

/-- C4 (amended): once both temporary files have been created — i.e. the
`.tif` tempfile was created and written and the `.mbtiles` tempfile was
created — `convert_tif_to_mbtiles_in_memory` removes both temporary files on
every exit path: tool success, non-zero tool exit, a subprocess exception,
or a failure reading the produced archive. -/
theorem convert_cleanup_after_setup (env : ConvEnv)
    (h1 : env.tifCreateOk = true) (h2 : env.tifWriteOk = true)
    (h3 : env.mbCreateOk = true) :
    (convert_tif_to_mbtiles_in_memory env).fs = ⟨false, false⟩ := by
  unfold convert_tif_to_mbtiles_in_memory innerBody cleanupTemps
  rw [h1, h2, h3]
  rcases env.toolOutcome with _ | ⟨code, stderr⟩
  · simp
  · by_cases hcode : code ≠ 0 <;> by_cases hread : env.readOk <;> simp [hcode, hread]

/-- C4 witness: cleanup on the tool-success path of a concrete
environment. -/
theorem convert_cleanup_after_setup_witness :
    (convert_tif_to_mbtiles_in_memory
        ⟨true, true, true, some (0, ""), true, [1, 2], ""⟩).fs = ⟨false, false⟩ :=
  convert_cleanup_after_setup ⟨true, true, true, some (0, ""), true, [1, 2], ""⟩
    rfl rfl rfl

/-- C4 counterexample: if writing the raster bytes into the already-created
`.tif` tempfile raises (e.g. the disk fills), the function still returns an
error pair, but the `.tif` temporary file — created with `delete=False`
before the inner `try/finally` is entered — is left on the filesystem, so
the claimed "removes both temporary files on every exit path, leaving no
residual temporary files" fails at this concrete input. -/
theorem convert_cleanup_counterexample :
    (convert_tif_to_mbtiles_in_memory
        ⟨true, false, true, some (0, ""), true, [], "disk full"⟩).fs.tifExists = true := by
  rfl

/-- C9: for a timeline with at least one readable frame in which literally
zero cells across all frames are valid (non-NaN, not the nodata value, and
strictly positive), the first pass of `create_gif_timeline` substitutes the
default display range `(0, 100)` for the untouched global min/max and
proceeds to build the shared colour normalisation rather than aborting. -/
theorem gif_norm_defaults_range (dataset : String) (frames : List GifFrame)
    (hne : frames ≠ []) (hvalid : allValidCells frames = []) :
    gifGlobalRange frames = (0, 100) ∧
      gifNormSetup dataset frames =
        .ok (if dataset = "PopDensity" then ⟨1, 100, true, "viridis"⟩
             else ⟨(0 : ℚ), 100, false, "Blues"⟩) := by
  have hrange : gifGlobalRange frames = (0, 100) := by
    unfold gifGlobalRange
    rw [hvalid]
  refine ⟨hrange, ?_⟩
  unfold gifNormSetup
  have hempty : frames.isEmpty = false := by simp [List.isEmpty_iff, hne]
  rw [hempty]
  simp only [Bool.false_eq_true, if_false, hrange]
  by_cases hd : dataset = "PopDensity" <;> simp [hd]

/-- C9 witness: one frame whose cells are a NaN, a zero, the nodata value
and a negative value — no valid cell — under the population-density kind. -/
theorem gif_norm_defaults_range_witness :
    ([⟨2010, [none, some 0, some 255, some (-3)], some 255⟩] ≠ ([] : List GifFrame)) ∧
      allValidCells [⟨2010, [none, some 0, some 255, some (-3)], some 255⟩] = [] ∧
      gifGlobalRange [⟨2010, [none, some 0, some 255, some (-3)], some 255⟩] = (0, 100) ∧
      gifNormSetup "PopDensity" [⟨2010, [none, some 0, some 255, some (-3)], some 255⟩] =
        .ok (if "PopDensity" = "PopDensity" then ⟨1, 100, true, "viridis"⟩
             else ⟨(0 : ℚ), 100, false, "Blues"⟩) :=
  ⟨by simp, by rfl,
    (gif_norm_defaults_range "PopDensity" _ (by simp) (by rfl)).1,
    (gif_norm_defaults_range "PopDensity" _ (by simp) (by rfl)).2⟩

/-- When every requested dataset is supported and cached for the year, the
gather loop returns all cached layers in request order. -/
lemma gatherArrays_ok (cache : Cache) (year : ℤ) :
    ∀ datasets : List String, (∀ ds ∈ datasets, ds ∈ supportedDatasets) →
      (∀ ds ∈ datasets, (cache ds year).isSome) →
      gatherArrays cache year datasets = .ok (cachedLayers cache year datasets)
  | [], _, _ => rfl
  | ds :: rest, hsup, hpres => by
    have hds : ds ∈ supportedDatasets := hsup ds (List.mem_cons_self ds rest)
    obtain ⟨a, ha⟩ := Option.isSome_iff_exists.mp (hpres ds (List.mem_cons_self ds rest))
    have ih := gatherArrays_ok cache year rest
      (fun x hx => hsup x (List.mem_cons_of_mem ds hx))
      (fun x hx => hpres x (List.mem_cons_of_mem ds hx))
    unfold gatherArrays
    rw [if_pos hds, ha]
    simp only [ih, cachedLayers, List.map_cons, ha]
    rfl

/-- When every requested dataset is supported but some year is missing, the
gather loop raises the "Data for year ... not found" error (at the first
missing dataset). -/
lemma gatherArrays_missing (cache : Cache) (year : ℤ) :
    ∀ datasets : List String, (∀ ds ∈ datasets, ds ∈ supportedDatasets) →
      (∃ ds ∈ datasets, cache ds year = none) →
      ∃ d, gatherArrays cache year datasets = .error (.missingYear d year)
  | [], _, hmiss => absurd hmiss (by simp)
  | ds :: rest, hsup, hmiss => by
    have hds : ds ∈ supportedDatasets := hsup ds (List.mem_cons_self ds rest)
    unfold gatherArrays
    rw [if_pos hds]
    cases hca : cache ds year with
    | none => exact ⟨ds, rfl⟩
    | some a =>
      have hrest : ∃ x ∈ rest, cache x year = none := by
        obtain ⟨x, hx, hxnone⟩ := hmiss
        rcases List.mem_cons.mp hx with hxds | hxrest
        · exact absurd hxnone (by rw [hxds, hca]; simp)
        · exact ⟨x, hxrest, hxnone⟩
      obtain ⟨d, hd⟩ := gatherArrays_missing cache year rest
        (fun x hx => hsup x (List.mem_cons_of_mem ds hx)) hrest
      refine ⟨d, ?_⟩
      rw [hd]
      rfl

/-- When every dataset before `d` is supported and cached, the gather loop
reaches `d` and raises "Unsupported dataset" there — before any per-year
lookup for `d`, whatever `cache d` holds. -/
lemma gatherArrays_unsupported (cache : Cache) (year : ℤ) (d : String)
    (hd : d ∉ supportedDatasets) :
    ∀ pre : List String, (∀ ds ∈ pre, ds ∈ supportedDatasets ∧ (cache ds year).isSome) →
      ∀ rest : List String,
        gatherArrays cache year (pre ++ d :: rest) = .error (.unsupportedDataset d)
  | [], _, rest => by
    show gatherArrays cache year (d :: rest) = _
    unfold gatherArrays
    rw [if_neg hd]
  | ds :: pre, hpre, rest => by
    have hds := hpre ds (List.mem_cons_self ds pre)
    obtain ⟨a, ha⟩ := Option.isSome_iff_exists.mp hds.2
    have ih := gatherArrays_unsupported cache year d hd pre
      (fun x hx => hpre x (List.mem_cons_of_mem ds hx)) rest
    show gatherArrays cache year (ds :: (pre ++ d :: rest)) = _
    unfold gatherArrays
    rw [if_pos hds.1, ha]
    simp only [ih]
    rfl

/-- Every band produced by the upscaling loop has exactly the maximum
height and width of the gathered layers. -/
lemma upscaleAll_dims (l : List Raster) :
    ∀ b ∈ upscaleAll l, b.height = maxHeightOf l ∧ b.width = maxWidthOf l := by
  intro b hb
  obtain ⟨a, _, rfl⟩ := List.mem_map.mp hb
  by_cases h : a.height ≠ maxHeightOf l ∨ a.width ≠ maxWidthOf l
  · rw [if_pos h]
    exact ⟨rfl, rfl⟩
  · rw [if_neg h]
    push_neg at h
    exact h

/-- A successful gather with a non-empty layer list makes
`load_and_preprocess_tif` return the upscaled stack. -/
lemma load_eq_of_gather_ok (cache : Cache) (region : String) (year : ℤ)
    (datasets : List String) (arrays : List Raster)
    (hreg : strLower region = "assaba")
    (hg : gatherArrays cache year datasets = .ok arrays)
    (hne : arrays.isEmpty = false) :
    load_and_preprocess_tif cache region year datasets =
      .ok ⟨maxHeightOf arrays, maxWidthOf arrays, upscaleAll arrays⟩ := by
  unfold load_and_preprocess_tif
  rw [if_neg (by rw [hreg]; exact fun h => h rfl)]
  rw [hg]
  simp [hne]

/-- An erroring gather makes `load_and_preprocess_tif` propagate the same
error. -/
lemma load_eq_of_gather_error (cache : Cache) (region : String) (year : ℤ)
    (datasets : List String) (e : ComposeError)
    (hreg : strLower region = "assaba")
    (hg : gatherArrays cache year datasets = .error e) :
    load_and_preprocess_tif cache region year datasets = .error e := by
  unfold load_and_preprocess_tif
  rw [if_neg (by rw [hreg]; exact fun h => h rfl)]
  rw [hg]

/-- C1: for every valid compose call — supported region, non-empty dataset
list, every dataset supported with its (dataset, year) layer cached —
`load_and_preprocess_tif` succeeds with the upscaled stack of the cached
layers in request order, so the band count equals the length of the dataset
list and every band has height and width equal to the maximum height and
maximum width among the input layers. -/
theorem compose_band_count_and_dims (cache : Cache) (region : String) (year : ℤ)
    (datasets : List String)
    (hreg : strLower region = "assaba") (hne : datasets ≠ [])
    (hsup : ∀ ds ∈ datasets, ds ∈ supportedDatasets)
    (hpres : ∀ ds ∈ datasets, (cache ds year).isSome) :
    load_and_preprocess_tif cache region year datasets =
        .ok ⟨maxHeightOf (cachedLayers cache year datasets),
             maxWidthOf (cachedLayers cache year datasets),
             upscaleAll (cachedLayers cache year datasets)⟩ ∧
      (upscaleAll (cachedLayers cache year datasets)).length = datasets.length ∧
      ∀ b ∈ upscaleAll (cachedLayers cache year datasets),
        b.height = maxHeightOf (cachedLayers cache year datasets) ∧
        b.width = maxWidthOf (cachedLayers cache year datasets) := by
  refine ⟨?_, ?_, upscaleAll_dims _⟩
  · exact load_eq_of_gather_ok cache region year datasets _ hreg
      (gatherArrays_ok cache year datasets hsup hpres)
      (by simp [cachedLayers, List.isEmpty_iff, hne])
  · simp [upscaleAll, cachedLayers]

/-- C1 witness: two supported datasets cached for 2020 with differing
dimensions (10×20 and 5×30). -/
theorem compose_band_count_and_dims_witness :
    ((strLower "assaba" = "assaba") ∧
      (["Climate_Precipitation_Data", "Gridded_Population_Density_Data"] ≠ ([] : List String)) ∧
      (∀ ds ∈ ["Climate_Precipitation_Data", "Gridded_Population_Density_Data"],
        ds ∈ supportedDatasets) ∧
      (∀ ds ∈ ["Climate_Precipitation_Data", "Gridded_Population_Density_Data"],
        ((fun ds y =>
          if ds = "Climate_Precipitation_Data" ∧ y = (2020 : ℤ) then
            some (⟨10, 20, fun _ _ => 1⟩ : Raster)
          else if ds = "Gridded_Population_Density_Data" ∧ y = 2020 then
            some (⟨5, 30, fun _ _ => 2⟩ : Raster)
          else none : Cache) ds 2020).isSome)) ∧
    ((upscaleAll (cachedLayers
        (fun ds y =>
          if ds = "Climate_Precipitation_Data" ∧ y = (2020 : ℤ) then
            some (⟨10, 20, fun _ _ => 1⟩ : Raster)
          else if ds = "Gridded_Population_Density_Data" ∧ y = 2020 then
            some (⟨5, 30, fun _ _ => 2⟩ : Raster)
          else none) 2020
        ["Climate_Precipitation_Data", "Gridded_Population_Density_Data"])).length =
        ["Climate_Precipitation_Data", "Gridded_Population_Density_Data"].length ∧
      ∀ b ∈ upscaleAll (cachedLayers
        (fun ds y =>
          if ds = "Climate_Precipitation_Data" ∧ y = (2020 : ℤ) then
            some (⟨10, 20, fun _ _ => 1⟩ : Raster)
          else if ds = "Gridded_Population_Density_Data" ∧ y = 2020 then
            some (⟨5, 30, fun _ _ => 2⟩ : Raster)
          else none) 2020
        ["Climate_Precipitation_Data", "Gridded_Population_Density_Data"]),
        b.height = 10 ∧ b.width = 30) := by
  have h := compose_band_count_and_dims
    (fun ds y =>
      if ds = "Climate_Precipitation_Data" ∧ y = (2020 : ℤ) then
        some (⟨10, 20, fun _ _ => 1⟩ : Raster)
      else if ds = "Gridded_Population_Density_Data" ∧ y = 2020 then
        some (⟨5, 30, fun _ _ => 2⟩ : Raster)
      else none)
    "assaba" 2020 ["Climate_Precipitation_Data", "Gridded_Population_Density_Data"]
    (by decide) (by decide) (by decide) (by decide)
  refine ⟨⟨by decide, by decide, by decide, by decide⟩, ?_, ?_⟩
  · exact h.2.1
  · intro b hb
    have hd := h.2.2 b hb
    have hmaxH : maxHeightOf (cachedLayers
        (fun ds y =>
          if ds = "Climate_Precipitation_Data" ∧ y = (2020 : ℤ) then
            some (⟨10, 20, fun _ _ => 1⟩ : Raster)
          else if ds = "Gridded_Population_Density_Data" ∧ y = 2020 then
            some (⟨5, 30, fun _ _ => 2⟩ : Raster)
          else none) 2020
        ["Climate_Precipitation_Data", "Gridded_Population_Density_Data"]) = 10 := by
      decide
    have hmaxW : maxWidthOf (cachedLayers
        (fun ds y =>
          if ds = "Climate_Precipitation_Data" ∧ y = (2020 : ℤ) then
            some (⟨10, 20, fun _ _ => 1⟩ : Raster)
          else if ds = "Gridded_Population_Density_Data" ∧ y = 2020 then
            some (⟨5, 30, fun _ _ => 2⟩ : Raster)
          else none) 2020
        ["Climate_Precipitation_Data", "Gridded_Population_Density_Data"]) = 30 := by
      decide
    rw [hmaxH] at hd
    rw [hmaxW] at hd
    exact hd

/-- C2: for every compose call over a supported region and supported
datasets in which some requested (dataset, year) pair is absent from the
cache, `load_and_preprocess_tif` fails with the "Data for year ... not
found" (`MissingLayer`) error — an `Except.error`, so no partial data is
returned. -/
theorem compose_missing_layer (cache : Cache) (region : String) (year : ℤ)
    (datasets : List String)
    (hreg : strLower region = "assaba")
    (hsup : ∀ ds ∈ datasets, ds ∈ supportedDatasets)
    (hmiss : ∃ ds ∈ datasets, cache ds year = none) :
    isMissingLayerError (load_and_preprocess_tif cache region year datasets) = true := by
  obtain ⟨d, hd⟩ := gatherArrays_missing cache year datasets hsup hmiss
  rw [load_eq_of_gather_error cache region year datasets _ hreg hd]
  rfl

/-- C2 witness: the spec scenario `compose("assaba", 2030,
["Climate_Precipitation_Data"])` against a cache with no 2030 layer. -/
theorem compose_missing_layer_witness :
    ((strLower "assaba" = "assaba") ∧
      (∀ ds ∈ ["Climate_Precipitation_Data"], ds ∈ supportedDatasets) ∧
      (∃ ds ∈ ["Climate_Precipitation_Data"],
        (fun (_ : String) (_ : ℤ) => (none : Option Raster)) ds 2030 = none)) ∧
    isMissingLayerError
      (load_and_preprocess_tif (fun _ _ => none) "assaba" 2030
        ["Climate_Precipitation_Data"]) = true :=
  ⟨⟨by decide, by decide, ⟨"Climate_Precipitation_Data", by decide, rfl⟩⟩,
    compose_missing_layer (fun _ _ => none) "assaba" 2030 ["Climate_Precipitation_Data"]
      (by decide) (by decide) ⟨"Climate_Precipitation_Data", by decide, rfl⟩⟩

/-- C10 (amended): for a supported region, if every dataset before the
first unsupported name `d` in the request list is supported with its layer
present for the year, `load_and_preprocess_tif` fails with the
"Unsupported dataset" error naming `d` — distinct from the `MissingLayer`
error — for every year and every cache content at `d`, i.e. the
supported-name check precedes the per-year cache lookup for that dataset.
(When an earlier dataset's layer is missing, the `MissingLayer` error wins
instead; see the counterexample.) -/
theorem compose_unsupported_dataset (cache : Cache) (region : String) (year : ℤ)
    (pre : List String) (d : String) (rest : List String)
    (hreg : strLower region = "assaba")
    (hpre : ∀ ds ∈ pre, ds ∈ supportedDatasets ∧ (cache ds year).isSome)
    (hd : d ∉ supportedDatasets) :
    load_and_preprocess_tif cache region year (pre ++ d :: rest) =
        .error (.unsupportedDataset d) ∧
      isMissingLayerError (load_and_preprocess_tif cache region year (pre ++ d :: rest))
        = false := by
  have h := load_eq_of_gather_error cache region year (pre ++ d :: rest) _ hreg
    (gatherArrays_unsupported cache year d hd pre hpre rest)
  exact ⟨h, by rw [h]; rfl⟩

/-- C10 witness: an unsupported name "bogus" after one supported, cached
dataset; the year 2031 has no entry for "bogus", yet the error is
"Unsupported dataset". -/
theorem compose_unsupported_dataset_witness :
    ((strLower "assaba" = "assaba") ∧
      (∀ ds ∈ ["Climate_Precipitation_Data"], ds ∈ supportedDatasets ∧
        ((fun ds y =>
          if ds = "Climate_Precipitation_Data" ∧ y = (2031 : ℤ) then
            some (⟨3, 4, fun _ _ => 0⟩ : Raster)
          else none : Cache) ds 2031).isSome) ∧
      "bogus" ∉ supportedDatasets) ∧
    load_and_preprocess_tif
        (fun ds y =>
          if ds = "Climate_Precipitation_Data" ∧ y = (2031 : ℤ) then
            some (⟨3, 4, fun _ _ => 0⟩ : Raster)
          else none)
        "assaba" 2031 (["Climate_Precipitation_Data"] ++ "bogus" :: []) =
      .error (.unsupportedDataset "bogus") :=
  ⟨⟨by decide, by decide, by decide⟩,
    (compose_unsupported_dataset
      (fun ds y =>
        if ds = "Climate_Precipitation_Data" ∧ y = (2031 : ℤ) then
          some (⟨3, 4, fun _ _ => 0⟩ : Raster)
        else none)
      "assaba" 2031 ["Climate_Precipitation_Data"] "bogus" []
      (by decide) (by decide) (by decide)).1⟩

/-- C10 counterexample: the claim as stated — every call containing an
unsupported dataset name fails with the "Unsupported dataset" error — is
false: with an empty cache, `compose("assaba", 2030,
["Climate_Precipitation_Data", "bogus"])` contains the unsupported name
"bogus" but fails with the `MissingLayer` error for the earlier supported
dataset, because the loop examines datasets in request order. -/
theorem compose_unsupported_dataset_counterexample :
    load_and_preprocess_tif (fun _ _ => none) "assaba" 2030
        ["Climate_Precipitation_Data", "bogus"] =
      .error (.missingYear "Climate_Precipitation_Data" 2030) ∧
    isUnsupportedDatasetError
      (load_and_preprocess_tif (fun _ _ => none) "assaba" 2030
        ["Climate_Precipitation_Data", "bogus"]) = false := by
  have h : load_and_preprocess_tif (fun _ _ => none) "assaba" 2030
      ["Climate_Precipitation_Data", "bogus"] =
      .error (.missingYear "Climate_Precipitation_Data" 2030) := by
    apply load_eq_of_gather_error _ _ _ _ _ (by decide)
    rfl
  exact ⟨h, by rw [h]; rfl⟩

/-- The per-year correlation entries of `analyze_correlations`, identical
on both branches of its final `if`. -/
lemma analyze_correlations_yearly (getPop getPrecip : ℤ → Option GeoJson)
    (years : List ℤ) :
    (analyze_correlations getPop getPrecip years).yearly_correlations =
      yearlyCorrelations getPop getPrecip years := by
  unfold analyze_correlations
  split <;> rfl

/-- C8: a year whose two extracted value lists have fewer than 10 paired
observations after truncation to the shorter length contributes no entry to
`yearly_correlations`; and when every requested year is skipped this way
(or lacks data), `analyze_correlations` returns the empty per-year mapping
with no average/relationship/strength summary. -/
theorem analyze_correlations_small_samples (getPop getPrecip : ℤ → Option GeoJson)
    (years : List ℤ) :
    ((∀ y ∈ years, ∀ pg qg, getPop y = some pg → getPrecip y = some qg →
        Min.min (extract_data_values pg).length (extract_data_values qg).length < 10) →
      analyze_correlations getPop getPrecip years = ⟨[], none⟩) ∧
    (∀ y pg qg, getPop y = some pg → getPrecip y = some qg →
        Min.min (extract_data_values pg).length (extract_data_values qg).length < 10 →
      y ∉ (analyze_correlations getPop getPrecip years).yearly_correlations.map
        Prod.fst) := by
  constructor
  · intro hall
    have hnil : yearlyCorrelations getPop getPrecip years = [] := by
      unfold yearlyCorrelations
      rw [List.filterMap_eq_nil_iff]
      intro y hy
      cases hp : getPop y with
      | none => rfl
      | some pg =>
        cases hq : getPrecip y with
        | none => rfl
        | some qg =>
          simp only []
          rw [if_pos (hall y hy pg qg hp hq)]
    unfold analyze_correlations
    rw [hnil]
    rfl
  · intro y pg qg hp hq hsmall hmem
    rw [analyze_correlations_yearly] at hmem
    obtain ⟨⟨z, r⟩, hzr, hfst⟩ := List.mem_map.mp hmem
    unfold yearlyCorrelations at hzr
    obtain ⟨w, _, hw⟩ := List.mem_filterMap.mp hzr
    cases hpw : getPop w with
    | none => rw [hpw] at hw; exact absurd hw (by simp)
    | some pgw =>
      cases hqw : getPrecip w with
      | none => rw [hpw, hqw] at hw; exact absurd hw (by simp)
      | some qgw =>
        rw [hpw, hqw] at hw
        simp only [] at hw
        by_cases hm : Min.min (extract_data_values pgw).length
            (extract_data_values qgw).length < 10
        · rw [if_pos hm] at hw
          exact absurd hw (by simp)
        · rw [if_neg hm] at hw
          have hz : z = w := by
            have := Option.some.inj hw
            exact (congrArg Prod.fst this).symm
          have hy : y = w := by rw [← hfst, hz]
          rw [hy] at hp hq
          rw [hpw] at hp
          rw [hqw] at hq
          cases Option.some.inj hp
          cases Option.some.inj hq
          exact hm hsmall

/-- C8 witness: both documents give five positive values for every year, so
every year is below the 10-sample floor and the result is the empty mapping
with no summary fields. -/
theorem analyze_correlations_small_samples_witness :
    ((∀ y ∈ [(2015 : ℤ), 2016, 2017], ∀ pg qg,
        (fun _ : ℤ => some (⟨List.replicate 5 ⟨some 1, some (.point 0 0)⟩⟩ : GeoJson)) y
          = some pg →
        (fun _ : ℤ => some (⟨List.replicate 5 ⟨some 2, some (.point 0 0)⟩⟩ : GeoJson)) y
          = some qg →
        Min.min (extract_data_values pg).length (extract_data_values qg).length < 10)) ∧
    analyze_correlations
        (fun _ => some ⟨List.replicate 5 ⟨some 1, some (.point 0 0)⟩⟩)
        (fun _ => some ⟨List.replicate 5 ⟨some 2, some (.point 0 0)⟩⟩)
        [2015, 2016, 2017] = ⟨[], none⟩ := by
  have hall : ∀ y ∈ [(2015 : ℤ), 2016, 2017], ∀ pg qg,
      (fun _ : ℤ => some (⟨List.replicate 5 ⟨some 1, some (.point 0 0)⟩⟩ : GeoJson)) y
        = some pg →
      (fun _ : ℤ => some (⟨List.replicate 5 ⟨some 2, some (.point 0 0)⟩⟩ : GeoJson)) y
        = some qg →
      Min.min (extract_data_values pg).length (extract_data_values qg).length < 10 := by
    intro y _ pg qg hp hq
    cases Option.some.inj hp
    cases Option.some.inj hq
    decide
  exact ⟨hall,
    (analyze_correlations_small_samples
      (fun _ => some ⟨List.replicate 5 ⟨some 1, some (.point 0 0)⟩⟩)
      (fun _ => some ⟨List.replicate 5 ⟨some 2, some (.point 0 0)⟩⟩)
      [2015, 2016, 2017]).1 hall⟩

/-! ### C3: the temporal-trend formulas -/

/-- The claim's formula for the per-pair percent changes: for every
consecutive year pair, `(mean₂ − mean₁) / mean₁ × 100`, rounded to two
decimals (spec-side formula, to be compared with the source's guarded
loop). -/
noncomputable def specPercentChanges (getGeo : ℤ → Option GeoJson) (ys : List ℤ) :
    List ((ℤ × ℤ) × ℚ) :=
  (consecPairs ys).map fun pc =>
    (pc, round2 ((yearMean getGeo pc.2 - yearMean getGeo pc.1) /
      yearMean getGeo pc.1 * 100))

/-- The claim's annualised-rate formula
`((last/first)^(1/Δyears) − 1) × 100`, rounded to two decimals (spec-side
formula). -/
noncomputable def specAnnualizedRate (getGeo : ℤ → Option GeoJson)
    (firstY lastY : ℤ) : ℝ :=
  round2R ((((yearMean getGeo lastY : ℝ) / (yearMean getGeo firstY : ℝ)) ^
    ((1 : ℝ) / ((lastY - firstY : ℤ) : ℝ)) - 1) * 100)

/-- The head of a non-empty list is a member. -/
lemma headI_mem_of_ne_nil : ∀ (l : List ℤ), l ≠ [] → l.headI ∈ l
  | [], h => absurd rfl h
  | _ :: _, _ => List.mem_cons_self _ _

/-- The defaulted last element of a non-empty list is a member. -/
lemma getLastD_mem_of_ne_nil : ∀ (l : List ℤ) (d : ℤ), l ≠ [] → l.getLastD d ∈ l
  | [], _, h => absurd rfl h
  | [x], d, _ => by simp
  | x :: y :: t, d, _ => by
    rw [List.getLastD_cons]
    exact List.mem_cons_of_mem x (getLastD_mem_of_ne_nil (y :: t) x (by simp))

/-- In a strictly sorted list of more than one element, the head is
strictly below the last element. -/
lemma headI_lt_getLastD (l : List ℤ) (hs : l.Sorted (· < ·)) (hl : 1 < l.length) :
    l.headI < l.getLastD 0 := by
  match l with
  | [] => simp at hl
  | [a] => simp at hl
  | a :: b :: t =>
    have hrest := List.pairwise_cons.mp hs
    have hmem : (b :: t).getLastD a ∈ b :: t :=
      getLastD_mem_of_ne_nil (b :: t) a (by simp)
    have : List.getLastD (a :: b :: t) 0 = (b :: t).getLastD a :=
      List.getLastD_cons 0 a (b :: t)
    rw [this]
    exact hrest.1 _ hmem

/-- The years with data are listed in strictly increasing order: sorted by
`mergeSort`, de-duplicated by the dict keys, and filtering preserves
both. -/
lemma dataYears_sorted (getGeo : ℤ → Option GeoJson) (years : List ℤ) :
    (dataYears getGeo years).Sorted (· < ·) := by
  have h1 : (years.mergeSort (fun a b => a ≤ b)).Sorted (· ≤ ·) :=
    List.sorted_mergeSort' years
  have h2 : ((years.mergeSort (fun a b => a ≤ b)).dedup).Sorted (· ≤ ·) :=
    h1.sublist (List.dedup_sublist _)
  have h3 : (dataYears getGeo years).Sorted (· ≤ ·) :=
    h2.sublist (List.filter_sublist _)
  have h4 : (dataYears getGeo years).Nodup :=
    (List.nodup_dedup _).filter _
  exact h3.lt_of_le h4

/-- Both components of a consecutive pair belong to the underlying list. -/
lemma consecPairs_mem : ∀ (ys : List ℤ) (pc : ℤ × ℤ), pc ∈ consecPairs ys →
    pc.1 ∈ ys ∧ pc.2 ∈ ys
  | [], _, h => absurd h (by simp [consecPairs])
  | [_], _, h => absurd h (by simp [consecPairs])
  | a :: b :: rest, pc, h => by
    rw [show consecPairs (a :: b :: rest) = (a, b) :: consecPairs (b :: rest) from rfl] at h
    rcases List.mem_cons.mp h with h1 | h2
    · subst h1
      exact ⟨List.mem_cons_self _ _, List.mem_cons_of_mem _ (List.mem_cons_self _ _)⟩
    · have ih := consecPairs_mem (b :: rest) pc h2
      exact ⟨List.mem_cons_of_mem _ ih.1, List.mem_cons_of_mem _ ih.2⟩

/-- There is one consecutive pair fewer than there are years. -/
lemma consecPairs_length : ∀ ys : List ℤ, (consecPairs ys).length = ys.length - 1
  | [] => rfl
  | [_] => rfl
  | a :: b :: rest => by
    show ((a, b) :: consecPairs (b :: rest)).length = _
    simp [consecPairs_length (b :: rest)]

/-- When every year in the list has a positive mean, the guard of the
percent-change loop always passes, so the loop computes exactly the
claim's formula on every consecutive pair. -/
lemma percentChanges_eq_spec (getGeo : ℤ → Option GeoJson) (ys : List ℤ)
    (hpos : ∀ y ∈ ys, 0 < yearMean getGeo y) :
    percentChanges getGeo ys = specPercentChanges getGeo ys := by
  unfold percentChanges specPercentChanges
  have h : ∀ pc ∈ consecPairs ys,
      0 < yearMean getGeo pc.2 ∧ 0 < yearMean getGeo pc.1 := by
    intro pc hpc
    have hm := consecPairs_mem ys pc hpc
    exact ⟨hpos _ hm.2, hpos _ hm.1⟩
  revert h
  generalize consecPairs ys = l
  intro h
  induction l with
  | nil => rfl
  | cons a t ih =>
    simp only [List.filterMap_cons, List.map_cons]
    rw [if_pos (h a (List.mem_cons_self a t))]
    rw [ih (fun x hx => h x (List.mem_cons_of_mem a hx))]

/-- C3: when more than one requested year has data and every such year has
a positive mean, `analyze_temporal_trends` returns change metrics in which
each consecutive-pair percent change is `(mean₂ − mean₁)/mean₁ × 100`
(rounded to two decimals), the average yearly change is the mean of those
per-pair changes, the total percent change is computed from the first and
last year, and the annualised rate is `((last/first)^(1/Δyears) − 1) × 100`
(rounded), with the other fields as computed by the source. -/
theorem analyze_temporal_trends_changes (getGeo : ℤ → Option GeoJson)
    (years : List ℤ)
    (hlen : 1 < (dataYears getGeo years).length)
    (hpos : ∀ y ∈ dataYears getGeo years, 0 < yearMean getGeo y) :
    (analyze_temporal_trends getGeo years).changes = some
      { percent_changes := specPercentChanges getGeo (dataYears getGeo years)
        center_of_mass_shifts := comShifts getGeo (dataYears getGeo years)
        trend_direction :=
          if 0 < ((specPercentChanges getGeo (dataYears getGeo years)).map (·.2)).sum
          then "increasing" else "decreasing"
        average_yearly_change :=
          round2 (((specPercentChanges getGeo (dataYears getGeo years)).map (·.2)).sum /
            (specPercentChanges getGeo (dataYears getGeo years)).length)
        time_period :=
          ((dataYears getGeo years).headI, (dataYears getGeo years).getLastD 0)
        total_percent_change :=
          round2 ((yearMean getGeo ((dataYears getGeo years).getLastD 0) -
            yearMean getGeo ((dataYears getGeo years).headI)) /
            yearMean getGeo ((dataYears getGeo years).headI) * 100)
        annualized_rate := specAnnualizedRate getGeo
          ((dataYears getGeo years).headI) ((dataYears getGeo years).getLastD 0) } := by
  have hne : dataYears getGeo years ≠ [] := by
    intro h
    rw [h] at hlen
    simp at hlen
  have hfirst : (dataYears getGeo years).headI ∈ dataYears getGeo years :=
    headI_mem_of_ne_nil _ hne
  have hlast : (dataYears getGeo years).getLastD 0 ∈ dataYears getGeo years :=
    getLastD_mem_of_ne_nil _ _ hne
  have hflt : (dataYears getGeo years).headI < (dataYears getGeo years).getLastD 0 :=
    headI_lt_getLastD _ (dataYears_sorted getGeo years) hlen
  have hyd : 0 < (dataYears getGeo years).getLastD 0 - (dataYears getGeo years).headI := by
    omega
  have hch : percentChanges getGeo (dataYears getGeo years) =
      specPercentChanges getGeo (dataYears getGeo years) :=
    percentChanges_eq_spec getGeo _ hpos
  have hchne : specPercentChanges getGeo (dataYears getGeo years) ≠ [] := by
    unfold specPercentChanges
    intro h
    rw [List.map_eq_nil_iff] at h
    have := consecPairs_length (dataYears getGeo years)
    rw [h] at this
    simp at this
    omega
  have hempty : (specPercentChanges getGeo (dataYears getGeo years)).isEmpty = false := by
    simp [List.isEmpty_iff, hchne]
  simp only [analyze_temporal_trends]
  rw [if_pos hlen, if_pos ⟨hpos _ hfirst, hpos _ hlast⟩]
  rw [hch, hempty]
  simp only [Bool.false_eq_true, if_false]
  rw [if_pos hyd]
  rfl

/-- The spec scenario's data source: three years of single-feature
documents with DN values 10, 12 and 15 at the origin. -/
def trendScenarioGeo : ℤ → Option GeoJson := fun y =>
  if y = 2015 then some ⟨[⟨some 10, some (.point 0 0)⟩]⟩
  else if y = 2016 then some ⟨[⟨some 12, some (.point 0 0)⟩]⟩
  else if y = 2017 then some ⟨[⟨some 15, some (.point 0 0)⟩]⟩
  else none

/-- The statistics record projects its mean as `np.mean` of the values. -/
lemma calculate_statistics_mean (v : ℚ) (vs : List ℚ) (g : Option GeoJson) :
    (calculate_statistics (v :: vs) g).mean = npMean (v :: vs) := rfl

lemma trendScenario_dataYears :
    dataYears trendScenarioGeo [2015, 2016, 2017] = [2015, 2016, 2017] := by
  unfold dataYears
  rw [List.mergeSort_eq_self (by decide)]
  rfl

lemma trendScenario_mean_2015 : yearMean trendScenarioGeo 2015 = 10 := by
  show npMean [10] = 10
  norm_num [npMean]

lemma trendScenario_mean_2016 : yearMean trendScenarioGeo 2016 = 12 := by
  show npMean [12] = 12
  norm_num [npMean]

lemma trendScenario_mean_2017 : yearMean trendScenarioGeo 2017 = 15 := by
  show npMean [15] = 15
  norm_num [npMean]

lemma trendScenario_pos :
    ∀ y ∈ dataYears trendScenarioGeo [2015, 2016, 2017], 0 < yearMean trendScenarioGeo y := by
  intro y hy
  rw [trendScenario_dataYears] at hy
  rcases (by simpa using hy : y = 2015 ∨ y = 2016 ∨ y = 2017) with rfl | rfl | rfl
  · rw [trendScenario_mean_2015]; norm_num
  · rw [trendScenario_mean_2016]; norm_num
  · rw [trendScenario_mean_2017]; norm_num

lemma trendScenario_percentChanges :
    specPercentChanges trendScenarioGeo [2015, 2016, 2017] =
      [((2015, 2016), 20), ((2016, 2017), 25)] := by
  unfold specPercentChanges
  rw [show consecPairs [2015, 2016, 2017] = [((2015 : ℤ), (2016 : ℤ)), (2016, 2017)] from rfl]
  simp only [List.map_cons, List.map_nil]
  rw [trendScenario_mean_2015, trendScenario_mean_2016, trendScenario_mean_2017]
  norm_num [round2, round_eq]

/-- The scenario's centres of mass sit at the origin, so no shift entry is
generated. -/
lemma trendScenario_comShifts :
    comShifts trendScenarioGeo [2015, 2016, 2017] = [] := by
  unfold comShifts
  rw [show consecPairs [2015, 2016, 2017] = [((2015 : ℤ), (2016 : ℤ)), (2016, 2017)] from rfl]
  have h15 : (yearStats trendScenarioGeo 2015).center_of_mass = (0, 0) := by
    show calculate_center_of_mass [((0 : ℚ), (0 : ℚ), (10 : ℚ))] = (0, 0)
    unfold calculate_center_of_mass
    norm_num
  have h16 : (yearStats trendScenarioGeo 2016).center_of_mass = (0, 0) := by
    show calculate_center_of_mass [((0 : ℚ), (0 : ℚ), (12 : ℚ))] = (0, 0)
    unfold calculate_center_of_mass
    norm_num
  have h17 : (yearStats trendScenarioGeo 2017).center_of_mass = (0, 0) := by
    show calculate_center_of_mass [((0 : ℚ), (0 : ℚ), (15 : ℚ))] = (0, 0)
    unfold calculate_center_of_mass
    norm_num
  simp only [List.filterMap_cons, List.filterMap_nil]
  rw [h15, h16, h17]
  simp

lemma trendScenario_annualized :
    specAnnualizedRate trendScenarioGeo 2015 2017 = 2247 / 100 := by
  unfold specAnnualizedRate
  rw [trendScenario_mean_2015, trendScenario_mean_2017]
  have hc : (((15 : ℚ) : ℝ) / ((10 : ℚ) : ℝ)) = 3 / 2 := by norm_num
  have he : ((1 : ℝ) / (((2017 : ℤ) - 2015 : ℤ) : ℝ)) = 1 / 2 := by norm_num
  rw [hc, he, ← Real.sqrt_eq_rpow]
  have hs0 : (0 : ℝ) ≤ 3 / 2 := by norm_num
  have hsq := Real.sq_sqrt hs0
  have hnn := Real.sqrt_nonneg ((3 : ℝ) / 2)
  have hub : Real.sqrt (3 / 2) < 1.22475 := by nlinarith
  have hlb : (1.2247 : ℝ) < Real.sqrt (3 / 2) := by nlinarith
  unfold round2R
  have hr : round ((Real.sqrt (3 / 2) - 1) * 100 * 100) = 2247 := by
    rw [round_eq, Int.floor_eq_iff]
    constructor
    · push_cast
      nlinarith
    · push_cast
      nlinarith
  rw [hr]
  norm_num

/-- C3 witness: the spec scenario — yearly means 10, 12, 15 over
2015–2017 — yields percent changes 20.0 and 25.0, average yearly change
22.5, total change 50.0 and annualised rate 22.47. -/
theorem analyze_temporal_trends_changes_witness :
    (1 < (dataYears trendScenarioGeo [2015, 2016, 2017]).length ∧
      ∀ y ∈ dataYears trendScenarioGeo [2015, 2016, 2017],
        0 < yearMean trendScenarioGeo y) ∧
    (analyze_temporal_trends trendScenarioGeo [2015, 2016, 2017]).changes = some
      { percent_changes := [((2015, 2016), 20), ((2016, 2017), 25)]
        center_of_mass_shifts := []
        trend_direction := "increasing"
        average_yearly_change := 45 / 2
        time_period := (2015, 2017)
        total_percent_change := 50
        annualized_rate := 2247 / 100 } := by
  have hlen : 1 < (dataYears trendScenarioGeo [2015, 2016, 2017]).length := by
    rw [trendScenario_dataYears]
    norm_num
  have h := analyze_temporal_trends_changes trendScenarioGeo [2015, 2016, 2017]
    hlen trendScenario_pos
  refine ⟨⟨hlen, trendScenario_pos⟩, ?_⟩
  rw [h, trendScenario_dataYears]
  rw [show ([2015, 2016, 2017] : List ℤ).headI = 2015 from rfl]
  rw [show ([2015, 2016, 2017] : List ℤ).getLastD 0 = 2017 from rfl]
  rw [trendScenario_percentChanges, trendScenario_comShifts, trendScenario_annualized]
  rw [trendScenario_mean_2015, trendScenario_mean_2017]
  simp only [Option.some.injEq, TrendChanges.mk.injEq, List.map_cons, List.map_nil,
    List.sum_cons, List.sum_nil, List.length_cons, List.length_nil]
  norm_num [round2, round_eq]

end UNHack
